import Mathlib

/-!
Verification of the goldstone-mgmt SONiC interface server
(src/south/sonic/goldstone/south/sonic/interfaces.py) against its
natural-language specification.

External collaborators (the sysrepo datastore, the Redis state store, the
usonic orchestrator) are modelled as explicit parameters: datastore reads
become function arguments and external writes become an explicit effect
map. Python semantics are kept: dicts are association lists in insertion
order, the str membership operator is a substring search, and the falsy
values None and the empty dict follow Python truthiness.
-/

/-- Python exception classes raised by the interface server.
nameError models a NameError from referencing an unbound variable,
keyError a KeyError from a missing dict key, waitTimeout the failure or
expiry of the bounded wait for the forwarding plane to become ready. -/
inductive PyErr where
  | invalArg (msg : String)
  | lockedError (msg : String)
  | keyError
  | nameError
  | notFound
  | waitTimeout
  deriving DecidableEq, Repr

/-- List prefix test used to implement the Python substring operator
(`pat in s`) and `str.endswith`. -/
def list_starts_with : List Char → List Char → Bool
  | [], _ => true
  | _ :: _, [] => false
  | p :: ps, c :: cs => p == c && list_starts_with ps cs

/-- Python substring search on char lists: `list_has_sub pat s` is true
iff pat occurs contiguously in s (the Python `pat in s` operator). -/
def list_has_sub (pat : List Char) : List Char → Bool
  | [] => list_starts_with pat []
  | c :: cs => list_starts_with pat (c :: cs) || list_has_sub pat cs

/-- Python `pat in s` on strings. -/
def str_contains_sub (s pat : String) : Bool :=
  list_has_sub pat.data s.data

/-- Python `s.endswith(suf)`. -/
def str_endswith (s suf : String) : Bool :=
  list_starts_with suf.data.reverse s.data.reverse

/-- Python `s.upper()`: uppercase every character. -/
def py_upper (s : String) : String :=
  ⟨s.data.map Char.toUpper⟩

/-- One UFD group entry as returned by get_ufd: the config dict of the
group, whose uplink and downlink leaf-lists may each be absent. A group
without a config dict is represented with both fields none. -/
structure UfdConfig where
  uplink : Option (List String)
  downlink : Option (List String)
  deriving DecidableEq, Repr

/-- InterfaceServer.is_downlink_port: scans the UFD groups in order and
returns (True, uplink list) for the first group whose downlink list
contains ifname; a KeyError from a missing uplink (or downlink) key is
swallowed by the bare except and the scan continues. -/
def is_downlink_port : List UfdConfig → String → Bool × Option (List String)
  | [], _ => (false, none)
  | g :: rest, ifname =>
    match g.downlink with
    | some dl =>
      if dl.contains ifname then
        match g.uplink with
        | some ul => (true, some ul)
        | none => is_downlink_port rest ifname
      else is_downlink_port rest ifname
    | none => is_downlink_port rest ifname

/-- InterfaceServer.is_ufd_port: ifname appears in the uplink or downlink
list of some group (missing keys default to the empty list via .get). -/
def is_ufd_port : List UfdConfig → String → Bool
  | [], _ => false
  | g :: rest, ifname =>
    if (g.uplink.getD []).contains ifname then true
    else if (g.downlink.getD []).contains ifname then true
    else is_ufd_port rest ifname

/-- InterfaceServer.get_oper_status: raw models sonic.get_oper_status
(the raw driver status, None when unknown). The Python guard
`if downlink_port and uplink_port` makes an empty uplink list falsy, and
only the FIRST uplink (uplink_port[0]) is consulted. When no DORMANT
branch is taken the raw status is uppercased; a missing raw status
yields None. -/
def get_oper_status (raw : String → Option String) (ufd : List UfdConfig)
    (ifname : String) : Option String :=
  let oper_status := raw ifname
  match is_downlink_port ufd ifname with
  | (true, some (u :: _)) =>
    if raw u = some "down" then some "DORMANT"
    else oper_status.map py_upper
  | _ => oper_status.map py_upper

/-- InterfaceServer.event_handler, one pubsub message for ifname: reads
the raw status, compares it to the cached per-interface value (default
"unknown"), and when different emits one link-state change event carrying
the RESOLVED status (get_oper_status) and updates the cache with the RAW
status. Returns the new cache and the list of emitted events. -/
def event_step (ufd : List UfdConfig) (raw : String → Option String)
    (notif_if : String → Option String) (ifname : String) :
    (String → Option String) × List (String × Option String) :=
  let oper_status := raw ifname
  let curr := (notif_if ifname).getD "unknown"
  match oper_status with
  | none => (notif_if, [])
  | some o =>
    if curr = o then (notif_if, [])
    else (fun n => if n = ifname then some o else notif_if n,
          [(ifname, get_oper_status raw ufd ifname)])

/-- C1 scenario: one UFD group with uplinks A and B and downlink D.
A is raw down, B is raw up, D is raw up. -/
def c1_raw : String → Option String := fun n =>
  if n = "A" then some "down"
  else if n = "B" then some "up"
  else if n = "D" then some "up"
  else none

/-- C1 scenario UFD topology. -/
def c1_ufd : List UfdConfig := [⟨some ["A", "B"], some ["D"]⟩]

/-- C6 scenario: one UFD group, uplink A (raw down throughout), downlink
D. First signal: D raw up. -/
def c6_raw1 : String → Option String := fun n =>
  if n = "A" then some "down" else if n = "D" then some "up" else none

/-- C6 scenario, second signal: D raw down. -/
def c6_raw2 : String → Option String := fun n =>
  if n = "A" then some "down" else if n = "D" then some "down" else none

/-- C6 scenario UFD topology. -/
def c6_ufd : List UfdConfig := [⟨some ["A"], some ["D"]⟩]

/-- C6 scenario: empty notification cache. -/
def c6_cache0 : String → Option String := fun _ => none

/-- InterfaceServer.get_breakout_detail. bstate models the datastore read
of .../interface[ifname]/ethernet/breakout/state: none when the read
yields no data, some (nc, cs) for a dict with optional num-channels and
channel-speed entries. Python truthiness: both None and the empty dict
fail `if data`, so a dict with neither key returns None as well. When
num-channels is at most 1 the elif condition `not name.endswith("_1")`
is evaluated, and `name` is an UNBOUND variable (the parameter is called
ifname), so a NameError is raised before any branch is taken; the
recursive parent lookup and the final `return None` are unreachable for
existing data. -/
def get_breakout_detail (bstate : String → Option (Option Nat × Option String))
    (ifname : String) : Except PyErr (Option (Nat × String)) :=
  match bstate ifname with
  | none => .ok none
  | some (nc, cs) =>
    if nc = none ∧ cs = none then .ok none
    else if nc.getD 1 > 1 then
      match nc, cs with
      | some n, some s => .ok (some (n, s))
      | _, _ => .error .keyError
    else .error .nameError

/-- Interface types accepted for a single-lane (4-channel breakout)
interface. -/
def SINGLE_LANE_INTERFACE_TYPES : List String := ["CR", "LR", "SR", "KR"]

/-- Interface types accepted for a double-lane (2-channel breakout)
interface. -/
def DOUBLE_LANE_INTERFACE_TYPES : List String := ["CR2", "LR2", "SR2", "KR2"]

/-- Interface types accepted for an unbroken (whole, 4-lane) port. -/
def QUAD_LANE_INTERFACE_TYPES : List String := ["CR4", "LR4", "SR4", "KR4"]

/-- InterfaceServer.validate_interface_type. running models whether
get_running_data on the interface xpath succeeds (False: it raises
NotFoundError, caught by the except clause). The try block catches only
KeyError and NotFoundError; a NameError from get_breakout_detail
propagates. With no breakout detail the channel count defaults to 1.
The detail dict is only consulted in the 4-channel branch, where the
channel-speed string is tested against the suffix 10GB. -/
def validate_interface_type (running : Bool)
    (bstate : String → Option (Option Nat × Option String))
    (ifname iftype : String) : Except PyErr Unit :=
  let tryRes : Except PyErr (Option (Nat × String)) :=
    if running = false then .ok none
    else
      match get_breakout_detail bstate ifname with
      | .ok none => .ok none
      | .ok (some d) => .ok (some d)
      | .error .keyError => .ok none
      | .error .notFound => .ok none
      | .error e => .error e
  match tryRes with
  | .error e => .error e
  | .ok detail =>
    let numch : Nat := match detail with | some d => d.1 | none => 1
    if numch = 4 then
      match detail with
      | some d =>
        if str_endswith d.2 "10GB" && iftype == "SR" then
          .error (.invalArg "Unsupported interface type")
        else if (SINGLE_LANE_INTERFACE_TYPES.contains iftype) = false then
          .error (.invalArg "Unsupported interface type")
        else .ok ()
      | none => .error .nameError
    else if numch = 2 then
      if (DOUBLE_LANE_INTERFACE_TYPES.contains iftype) = false then
        .error (.invalArg "Unsupported interface type")
      else .ok ()
    else if numch = 1 then
      if (QUAD_LANE_INTERFACE_TYPES.contains iftype) = false then
        .error (.invalArg "Unsupported interface type")
      else .ok ()
    else .error (.invalArg "Unsupported interface type")

/-- One datastore change event as seen by a change handler: the event
type string (created, modified or deleted), the interface name extracted
from the xpath, and the new leaf value. -/
structure ChangeEvent where
  type : String
  ifname : String
  value : String
  deriving DecidableEq, Repr

/-- The speed conversion helpers of the sonic module (not under src):
speed_yang_to_redis maps a YANG speed string to the redis integer form
(None for unknown values), speed_redis_to_yang the reverse. Modelled as
abstract parameters since only their functional behaviour matters. -/
structure SpeedEnv where
  speed_yang_to_redis : String → Option Nat
  speed_redis_to_yang : Nat → String

/-- IfChangeHandler.valid_speeds: the empty list (no speed change
allowed) for any name that does not end in _1, else 40000 and 100000. -/
def valid_speeds (ifname : String) : List Nat :=
  if str_endswith ifname "_1" = false then [] else [40000, 100000]

/-- Python `value in valids` where value may be None (None equals no
integer). -/
def speed_in_valids (value : Option Nat) (valids : List Nat) : Bool :=
  match value with
  | some n => valids.contains n
  | none => false

/-- SpeedHandler.validate: on created or modified events, the converted
value must be in valid_speeds, else an InvalArgError is raised whose
message carries the offending VALUE (self.change.value) and the
candidate list. -/
def SpeedHandler_validate (env : SpeedEnv) (ev : ChangeEvent) :
    Except PyErr Unit :=
  if ev.type = "created" ∨ ev.type = "modified" then
    if speed_in_valids (env.speed_yang_to_redis ev.value)
        (valid_speeds ev.ifname) = false then
      .error (.invalArg ("Invalid speed: " ++ ev.value ++ ", candidates: "
        ++ String.intercalate ","
            ((valid_speeds ev.ifname).map env.speed_redis_to_yang)))
    else .ok ()
  else .ok ()

/-- AutoNegotiateAdvertisedSpeedsHandler.validate: same check as
SpeedHandler.validate, but the raise statement formats the message with
the UNBOUND variable `change` (the attribute is self.change), so
evaluating the f-string raises NameError before the InvalArgError is
constructed. -/
def AutoNegotiateAdvertisedSpeedsHandler_validate (env : SpeedEnv)
    (ev : ChangeEvent) : Except PyErr Unit :=
  if ev.type = "created" ∨ ev.type = "modified" then
    if speed_in_valids (env.speed_yang_to_redis ev.value)
        (valid_speeds ev.ifname) = false then
      .error .nameError
    else .ok ()
  else .ok ()

/-- C7 scenario speed conversions (the values the sonic module uses for
the two valid speeds). -/
def c7_env : SpeedEnv :=
  ⟨fun s => if s = "SPEED_40G" then some 40000
            else if s = "SPEED_100G" then some 100000 else none,
   fun n => if n = 40000 then "SPEED_40G" else "SPEED_100G"⟩

/-- BreakoutHandler.validate: on created or modified events the handler
rejects names without the substring _1 (the sub-interface guard uses the
Python `in` operator, not endswith), then interfaces that are UFD
members, then configurations where num-channels and channel-speed are
not both present in the cached post-change subtree. bk_config is the
cached ethernet/breakout/config dict of the interface; a missing subtree
raises an uncaught KeyError. Deleted events validate trivially. -/
def BreakoutHandler_validate (ufd_list : List UfdConfig) (ev : ChangeEvent)
    (bk_config : Option (Option Nat × Option String)) : Except PyErr Unit :=
  if ev.type = "created" ∨ ev.type = "modified" then
    if str_contains_sub ev.ifname "_1" = false then
      .error (.invalArg "breakout cannot be configured on a sub-interface")
    else if is_ufd_port ufd_list ev.ifname = true then
      .error (.invalArg
        "Breakout cannot be configured on the interface that is part of UFD")
    else
      match bk_config with
      | none => .error .keyError
      | some (nc, cs) =>
        if nc = none ∨ cs = none then
          .error (.invalArg
            "both num-channels and channel-speed must be set at once")
        else .ok ()
  else .ok ()

/-- Recognizer for a user-facing validation failure (InvalArgError). -/
def is_validation_error : Except PyErr Unit → Bool
  | .error (.invalArg _) => true
  | _ => false

/-- Sinks for external writes during reconciliation: the redis CONFIG_DB
table (set_config_db) and the vendor control channel
(run_bcmcmd_port). -/
inductive Sink where
  | configdb
  | bcm
  deriving DecidableEq, Repr

/-- One external write: sink, interface, attribute key, value. A bcm
write with key an models the command an=value, key adv the command
adv=value, key if the command if=value. -/
structure Write where
  sink : Sink
  ifname : String
  key : String
  value : String
  deriving DecidableEq, Repr

/-- The observable per-attribute state of the external systems: last
value written per (sink, interface, key), none if never written. -/
abbrev Eff := Sink × String × String → Option String

/-- Apply one write to the external state (writes overwrite by key). -/
def apply_write (m : Eff) (w : Write) : Eff :=
  fun k => if k = (w.sink, w.ifname, w.key) then some w.value else m k

/-- Apply a list of writes in order. -/
def applyW (m : Eff) (ws : List Write) : Eff :=
  ws.foldl apply_write m

/-- The last value a write list assigns to a key, if any. -/
def last_write : List Write → Sink × String × String → Option String
  | [], _ => none
  | w :: ws, k =>
    match last_write ws k with
    | some v => some v
    | none => if k = (w.sink, w.ifname, w.key) then some w.value else none

/-- A Python value in a configuration dict: bool, string, or a string
leaf-list. -/
inductive PyV where
  | vb (b : Bool)
  | vs (s : String)
  | vl (l : List String)
  deriving DecidableEq, Repr

/-- Python truthiness for PyV. -/
def py_truthy : PyV → Bool
  | .vb b => b
  | .vs s => !(s == "")
  | .vl l => !l.isEmpty

/-- Python `s.lower()`. -/
def py_lower (s : String) : String :=
  ⟨s.data.map Char.toLower⟩

/-- Worker for py_replace: replace every occurrence of pat by rep, with
fuel bounded by the input length (each step consumes at least one
char). -/
def list_replace_go (pat rep : List Char) : Nat → List Char → List Char
  | _, [] => []
  | 0, l => l
  | fuel + 1, c :: cs =>
    if list_starts_with pat (c :: cs) then
      rep ++ list_replace_go pat rep fuel (List.drop (pat.length - 1) cs)
    else c :: list_replace_go pat rep fuel cs

/-- Python `s.replace(pat, rep)` for nonempty pat. -/
def py_replace (s pat rep : String) : String :=
  ⟨list_replace_go pat.data rep.data s.data.length s.data⟩

/-- The advertised-speeds join of the reconcile loop:
",".join(v.replace("SPEED_", "").lower() for v in value). For a string
value Python iterates its characters. -/
def join_speeds : PyV → String
  | .vl l => String.intercalate ","
      (l.map (fun v => py_lower (py_replace v "SPEED_" "")))
  | .vs s => String.intercalate ","
      (s.data.map (fun c => py_lower (py_replace ⟨[c]⟩ "SPEED_" "")))
  | .vb _ => ""

/-- The running configuration of one interface as read during
reconciliation: the config subtree, the ethernet/config subtree, the
ethernet/auto-negotiate/config subtree (each a dict in insertion order)
and the ethernet/breakout/config leaves used to derive the port map. -/
structure IfData where
  config : List (String × String)
  ethernet : List (String × String)
  autoneg : List (String × PyV)
  breakout_nc : Option Nat
  breakout_cs : Option String
  deriving DecidableEq, Repr

/-- The full running configuration: interface name to data, in list
order. -/
abbrev Config := List (String × IfData)

/-- The desired physical port map pushed to the usonic orchestrator:
interface name to (num-channels, redis channel speed). -/
abbrev PortMap := List (String × (Option Nat × Option Nat))

/-- The environment of the reconcile engine: schema defaults
(find_node().default()), the k8s default interface type, the sonic speed
conversion, the interface names that materialize for a port map, and
whether the bounded wait for the restarted forwarding plane succeeds.
enabled_default models the fill value `get_default("enabled") == "true"`
(in the source this comparison is between a Bool and a string, hence
always False; it is kept as a parameter). -/
structure Env where
  get_default : String → String
  enabled_default : Bool
  get_default_iftype : String → Option String
  speed_yang_to_redis : String → Option Nat
  portmap_ifnames : PortMap → List String
  wait_ok : Bool

/-- The port map derived from the breakout leaves of the configuration
(first half of breakout_update_usonic). -/
def derive_portmap (env : Env) (cfg : Config) : PortMap :=
  cfg.map (fun p =>
    (p.1, (p.2.breakout_nc, p.2.breakout_cs.bind env.speed_yang_to_redis)))

/-- The state of the sonic collaborator: the busy flag, the port map
held by the usonic configmap, the interface names known to the driver,
a restart counter, the cumulative hardware counters, the cached counter
baseline, and the external attribute state. -/
structure Sonic where
  is_rebooting : Bool
  portmap : PortMap
  ifnames : List String
  restart_count : Nat
  hw_counters : Nat
  counter_baseline : Nat
  eff : Eff

/-- sonic.cache_counters: snapshot the current cumulative counters as
the new baseline. -/
def cache_counters (s : Sonic) : Sonic :=
  { s with counter_baseline := s.hw_counters }

/-- InterfaceServer.breakout_update_usonic. The call
k8s.update_usonic_config is not under src; modelled from the spec:
update_port_map(map) -> changed:boolean pushes the desired map and
reports whether it differs from the active one. On change the
deployment is restarted (restart counter incremented, interface names
re-derived from the new map). -/
def breakout_update_usonic (env : Env) (cfg : Config) (s : Sonic) :
    Bool × Sonic :=
  let intfs := derive_portmap env cfg
  if s.portmap = intfs then (false, { s with portmap := intfs })
  else
    (true,
     { s with
        portmap := intfs
        restart_count := s.restart_count + 1
        ifnames := env.portmap_ifnames intfs })

/-- Python dict default fill `if k not in d: d[k] = v` (insertion
appends at the end). -/
def fill_default (d : List (String × String)) (k v : String) :
    List (String × String) :=
  if (d.lookup k).isSome then d else d ++ [(k, v)]

/-- fill_default for PyV-valued dicts. -/
def fill_default_v (d : List (String × PyV)) (k : String) (v : PyV) :
    List (String × PyV) :=
  if (d.lookup k).isSome then d else d ++ [(k, v)]

/-- The auto-negotiate replay loop of reconcile: enabled becomes the
command an=yes or an=no, advertised-speeds the command adv=...; other
keys are silently ignored (this loop has no else branch). -/
def an_step (ifname : String) : List (String × PyV) → List Write
  | [] => []
  | (k, v) :: rest =>
    if k = "enabled" then
      ⟨.bcm, ifname, "an", if py_truthy v then "yes" else "no"⟩
        :: an_step ifname rest
    else if k = "advertised-speeds" then
      ⟨.bcm, ifname, "adv", join_speeds v⟩ :: an_step ifname rest
    else an_step ifname rest

/-- The ethernet/config replay loop of reconcile. configKeys is the key
set of the variable `config` at this point of the source (the full tree
for the first interface, the previous interface config dict after
that). The else branch logs f-string text containing config[key]: when
key is missing from configKeys this raises an uncaught KeyError, the
intended logged-and-skipped path is taken only when the key happens to
exist there. -/
def eth_step (ifname : String) (configKeys : List String) :
    List (String × String) → Except PyErr (List Write)
  | [] => .ok []
  | (k, v) :: rest =>
    if k = "interface-type" then
      (eth_step ifname configKeys rest).map (⟨.bcm, ifname, "if", v⟩ :: ·)
    else if k = "mtu" ∨ k = "fec" ∨ k = "speed" then
      (eth_step ifname configKeys rest).map (⟨.configdb, ifname, k, v⟩ :: ·)
    else if configKeys.contains k then
      eth_step ifname configKeys rest
    else .error .keyError

/-- The config replay loop of reconcile: admin-status and description go
to CONFIG_DB, name is skipped, anything else is logged and skipped (the
logged config[key] is always present here because the loop iterates the
same dict). -/
def cfg_step (ifname : String) : List (String × String) → List Write
  | [] => []
  | (k, v) :: rest =>
    if k = "admin-status" ∨ k = "description" then
      ⟨.configdb, ifname, k, v⟩ :: cfg_step ifname rest
    else cfg_step ifname rest

/-- One interface of the per-interface replay step of reconcile: fill
defaults (enabled; mtu, fec; interface-type when the k8s default is
truthy; admin-status), then run the three attribute loops. Returns the
writes in order and the key set that the variable `config` holds
afterwards (the default-filled config dict of this interface). -/
def replay_iface (env : Env) (configKeys : List String) (ifname : String)
    (d : IfData) : Except PyErr (List Write × List String) :=
  let an := fill_default_v d.autoneg "enabled" (.vb env.enabled_default)
  let w1 := an_step ifname an
  let eth0 := fill_default (fill_default d.ethernet "mtu"
    (env.get_default "mtu")) "fec" (env.get_default "fec")
  let eth :=
    if (eth0.lookup "interface-type").isSome then eth0
    else
      match env.get_default_iftype ifname with
      | some t => eth0 ++ [("interface-type", t)]
      | none => eth0
  match eth_step ifname configKeys eth with
  | .error e => .error e
  | .ok w2 =>
    let cfg := fill_default d.config "admin-status"
      (env.get_default "admin-status")
    .ok (w1 ++ w2 ++ cfg_step ifname cfg, cfg.map Prod.fst)

/-- The key set of the full running tree read at the start of reconcile
(get_running_data(top, default=empty, strip=False)): the single
module-prefixed top container when any interface is configured, else
empty. This is what the variable `config` holds when the first
interface is replayed. -/
def top_keys (cfg : Config) : List String :=
  if cfg.isEmpty then [] else ["goldstone-interfaces:interfaces"]

/-- get_running_data for one interface with default empty dict. -/
def if_data (cfg : Config) (ifname : String) : IfData :=
  (cfg.lookup ifname).getD ⟨[], [], [], none, none⟩

/-- The per-interface replay loop over the driver interface names,
threading the configKeys variable from one iteration to the next. -/
def replay_go (env : Env) (cfg : Config) (configKeys : List String) :
    List String → Except PyErr (List Write)
  | [] => .ok []
  | n :: rest =>
    match replay_iface env configKeys n (if_data cfg n) with
    | .error e => .error e
    | .ok (w, ck2) => (replay_go env cfg ck2 rest).map (w ++ ·)

/-- The whole replay step of reconcile, a pure function of the
environment, the configuration and the driver interface names. -/
def replay_all (env : Env) (cfg : Config) (ifnames : List String) :
    Except PyErr (List Write) :=
  replay_go env cfg (top_keys cfg) ifnames

/-- The replay stage of InterfaceServer.reconcile: run the per-interface
replay, apply its writes, then (after the peer servers reconcile, which
does not touch this state) clear the busy flag. On a replay exception
the flag stays set and the error propagates. -/
def reconcile_replay (env : Env) (cfg : Config) (s1 : Sonic) :
    Sonic × Option PyErr :=
  match replay_all env cfg s1.ifnames with
  | .error e => (s1, some e)
  | .ok w => ({ s1 with eff := applyW s1.eff w, is_rebooting := false },
              none)

/-- The stage of InterfaceServer.reconcile after
breakout_update_usonic: when the port map changed, wait for the
restarted forwarding plane (a failed or expired wait propagates with the
busy flag still set); when unchanged, cache the counter baseline
instead. Then replay. -/
def reconcile_after_update (env : Env) (cfg : Config) (r : Bool × Sonic) :
    Sonic × Option PyErr :=
  if r.1 && !env.wait_ok then (r.2, some .waitTimeout)
  else reconcile_replay env cfg (if r.1 then r.2 else cache_counters r.2)

/-- InterfaceServer.reconcile: set the busy flag, push the derived port
map (restarting and waiting when it changed, else caching the counter
baseline), replay all configuration, let the peer servers reconcile
(no effect on this state), and clear the busy flag. The source has no
try/finally: when the wait fails or the replay raises, the error
propagates with the busy flag still set. The returned pair is the state
reached and the propagated exception, if any. -/
def reconcile (env : Env) (cfg : Config) (s0 : Sonic) :
    Sonic × Option PyErr :=
  reconcile_after_update env cfg
    (breakout_update_usonic env cfg { s0 with is_rebooting := true })

/-- InterfaceServer.pre: reject every commit while the forwarding plane
is marked rebooting. -/
def pre (s : Sonic) : Except PyErr Unit :=
  if s.is_rebooting then .error (.lockedError "uSONiC is rebooting")
  else .ok ()

/-- C3 scenario: a topology change is pending (empty active map, one
configured breakout port) and the bounded wait for the restarted
forwarding plane fails. -/
def c3_env : Env :=
  ⟨fun _ => "", false, fun _ => none, fun _ => none, fun _ => [], false⟩

/-- C3 scenario configuration: one breakout port. -/
def c3_cfg : Config :=
  [("Ethernet0_1", ⟨[], [], [], some 4, some "SPEED_10G"⟩)]

/-- C3 scenario initial sonic state: idle, empty port map. -/
def c3_sonic : Sonic := ⟨false, [], [], 0, 0, 0, fun _ => none⟩

/-- C4 scenario environment: empty schema defaults, no k8s default
interface type, wait succeeds. -/
def c4_env : Env :=
  ⟨fun _ => "", false, fun _ => none, fun _ => none, fun _ => [], true⟩

/-- C4 failing input: Ethernet0_1 carries one unrecognized
ethernet/config attribute xxx. -/
def c4_cfg : Config := [("Ethernet0_1", ⟨[], [("xxx", "1")], [], none, none⟩)]

/-- C4 scenario sonic state: the active port map already matches, so the
run goes straight to the replay step. -/
def c4_sonic : Sonic :=
  ⟨false, [("Ethernet0_1", (none, none))], ["Ethernet0_1"], 0, 0, 0,
   fun _ => none⟩

/-- C5 witness environment. -/
def c5_env : Env :=
  ⟨fun _ => "dflt", false, fun _ => none, fun _ => none, fun _ => [], true⟩

/-- C5 witness: empty configuration. -/
def c5_cfg : Config := []

/-- C5 witness: initial sonic state with hardware counters at 5. -/
def c5_s0 : Sonic := ⟨false, [], [], 0, 5, 0, fun _ => none⟩

/-- C5 witness: the state after the first reconcile run (baseline
snapshotted to 5). -/
def c5_s1 : Sonic := ⟨false, [], [], 0, 5, 5, fun _ => none⟩

/-- The running-datastore read that get_breakout_detail actually
performs: its xpath ends in ethernet/breakout/STATE, but breakout
configuration is stored at ethernet/breakout/CONFIG (the CLI writes
only the config leaves, and breakout_update_usonic and oper_cb read the
config subtree); the state container is operational-only output
synthesized by oper_cb on the fly. The running datastore therefore
never holds data at the state xpath: the read yields nothing for every
running configuration and every interface name. -/
def breakout_state_running (_cfg : Config) (_ifname : String) :
    Option (Option Nat × Option String) :=
  none

/-- C2 scenario: the running configuration of the claim, Ethernet0_1
configured with breakout num-channels 4 and channel-speed SPEED_10G
(the YANG value the CLI writes for the human speed 10G) at the
breakout/config subtree. -/
def c2_cfg : Config :=
  [("Ethernet0_1", ⟨[], [], [], some 4, some "SPEED_10G"⟩)]

/-- C1 counterexample: with uplinks A raw down and B raw up (so NOT all
uplinks down), the claim says resolve(D) is the raw status of D
uppercased, i.e. UP; the code returns DORMANT because it consults only
the first uplink. -/
theorem C1_counterexample :
    get_oper_status c1_raw c1_ufd "D" = some "DORMANT"
    ∧ c1_raw "B" = some "up"
    ∧ (c1_raw "D").map py_upper = some "UP"
    ∧ (some "DORMANT" : Option String) ≠ some "UP" := by
  refine ⟨rfl, rfl, by decide, by decide⟩

/-- C1 (amended): the resolver keys on the FIRST configured uplink of the
first UFD group that lists ifname as a downlink and has an uplink list:
if that first uplink is raw down the result is DORMANT regardless of the
own raw status of ifname; otherwise (first uplink not down, or no such
group) the result is the raw status of ifname uppercased. -/
theorem C1_oper_status_first_uplink (raw : String → Option String)
    (ufd : List UfdConfig) (ifname u : String) (us : List String) :
    (is_downlink_port ufd ifname = (true, some (u :: us)) →
      raw u = some "down" → get_oper_status raw ufd ifname = some "DORMANT")
    ∧ (is_downlink_port ufd ifname = (true, some (u :: us)) →
      raw u ≠ some "down" →
      get_oper_status raw ufd ifname = (raw ifname).map py_upper)
    ∧ ((is_downlink_port ufd ifname).2 = none →
      get_oper_status raw ufd ifname = (raw ifname).map py_upper) := by
  unfold get_oper_status
  refine ⟨?_, ?_, ?_⟩
  · intro h hd
    rw [h]
    simp [hd]
  · intro h hd
    rw [h]
    simp [hd]
  · intro h
    rcases hh : is_downlink_port ufd ifname with ⟨b, o⟩
    rw [hh] at h
    simp at h
    subst h
    cases b <;> simp

/-- C1 witness: the amended theorem applied to the concrete topology,
with the first uplink A raw down, yields DORMANT. -/
theorem C1_witness : get_oper_status c1_raw c1_ufd "D" = some "DORMANT" :=
  (C1_oper_status_first_uplink c1_raw c1_ufd "D" "A" ["B"]).1 rfl rfl

/-- C6 counterexample: two consecutive raw signals for D (raw up then raw
down, with uplink A down) both resolve to DORMANT, yet the bridge emits
TWO notifications, because deduplication compares the raw status, not the
resolved status. -/
theorem C6_counterexample :
    get_oper_status c6_raw1 c6_ufd "D" = some "DORMANT"
    ∧ get_oper_status c6_raw2 c6_ufd "D" = some "DORMANT"
    ∧ (event_step c6_ufd c6_raw1 c6_cache0 "D").2 = [("D", some "DORMANT")]
    ∧ (event_step c6_ufd c6_raw2
        (event_step c6_ufd c6_raw1 c6_cache0 "D").1 "D").2
      = [("D", some "DORMANT")] := by
  refine ⟨rfl, rfl, rfl, rfl⟩

/-- C6 (amended): deduplication keys on the RAW status: a second
consecutive signal whose raw status for the interface equals that of the
first signal is always dropped (so two such signals emit at most one
notification); signals with distinct raw statuses are emitted even when
they map to the same resolved status. -/
theorem C6_dedup_on_raw_status (ufd : List UfdConfig)
    (raw1 raw2 : String → Option String) (cache : String → Option String)
    (ifname : String) (h : raw1 ifname = raw2 ifname) :
    (event_step ufd raw2 (event_step ufd raw1 cache ifname).1 ifname).2
      = [] := by
  unfold event_step
  rw [← h]
  cases hr : raw1 ifname with
  | none => simp [hr]
  | some o =>
    by_cases hc : (cache ifname).getD "unknown" = o
    · simp [hr, hc]
    · simp [hr, hc]

/-- C6 witness: repeating the first signal of the concrete scenario emits
nothing the second time. -/
theorem C6_dedup_on_raw_status_witness :
    (event_step c6_ufd c6_raw1
      (event_step c6_ufd c6_raw1 c6_cache0 "D").1 "D").2 = [] :=
  C6_dedup_on_raw_status c6_ufd c6_raw1 c6_raw1 c6_cache0 "D" rfl

/-- C2: the claim states the spec intent, but get_breakout_detail reads
the breakout detail from the STATE subtree of the RUNNING datastore
(xpath ...ethernet/breakout/state), while breakout is configured at
...breakout/config, so the read yields nothing for every running
configuration: with Ethernet0_1 configured num-channels 4 and
channel-speed SPEED_10G, the channel count falls back to 1 and
validate_interface_type accepts exactly the QUAD-lane types — CR4 is
accepted and SR and CR are rejected, the opposite of the claim. -/
theorem C2_state_read_accepts_quad_lane :
    (∀ (cfg : Config) (ifname : String),
      get_breakout_detail (breakout_state_running cfg) ifname = .ok none)
    ∧ (∀ iftype : String,
      validate_interface_type true (breakout_state_running c2_cfg)
          "Ethernet0_1" iftype = .ok ()
        ↔ iftype ∈ QUAD_LANE_INTERFACE_TYPES)
    ∧ validate_interface_type true (breakout_state_running c2_cfg)
        "Ethernet0_1" "CR4" = .ok ()
    ∧ validate_interface_type true (breakout_state_running c2_cfg)
        "Ethernet0_1" "SR" = .error (.invalArg "Unsupported interface type")
    ∧ validate_interface_type true (breakout_state_running c2_cfg)
        "Ethernet0_1" "CR" = .error (.invalArg "Unsupported interface type")
    := by
  have key : ∀ ift : String,
      validate_interface_type true (breakout_state_running c2_cfg)
          "Ethernet0_1" ift
      = if (QUAD_LANE_INTERFACE_TYPES.contains ift) = false
        then .error (.invalArg "Unsupported interface type")
        else .ok () := fun _ => rfl
  refine ⟨fun _ _ => rfl, ?_, rfl, rfl, rfl⟩
  intro iftype
  rw [key iftype]
  by_cases hm : iftype ∈ QUAD_LANE_INTERFACE_TYPES
  · have hc : QUAD_LANE_INTERFACE_TYPES.contains iftype = true :=
      List.elem_iff.mpr hm
    simp [hc, hm]
  · have hc : QUAD_LANE_INTERFACE_TYPES.contains iftype = false := by
      refine Bool.eq_false_iff.mpr ?_
      intro hcc
      exact hm (List.elem_iff.mp hcc)
    simp [hc, hm]

/-- C9: for an interface name not ending in _1 whose own breakout state
exists (the datastore read yields a nonempty dict) with num-channels at
most 1, get_breakout_detail raises NameError (the parent-fallback elif
references the unbound variable name) instead of returning the parent
detail or None. -/
theorem C9_parent_fallback_name_error
    (bstate : String → Option (Option Nat × Option String))
    (ifname : String) (nc : Option Nat) (cs : Option String)
    (_hend : str_endswith ifname "_1" = false)
    (hst : bstate ifname = some (nc, cs))
    (hne : ¬(nc = none ∧ cs = none))
    (hch : nc.getD 1 ≤ 1) :
    get_breakout_detail bstate ifname = .error .nameError := by
  unfold get_breakout_detail
  rw [hst]
  simp only [hne, if_false]
  have : ¬ nc.getD 1 > 1 := by omega
  simp [this]

/-- C9 witness: Ethernet0_2 with breakout state num-channels 1 and a
channel-speed raises NameError. -/
theorem C9_parent_fallback_name_error_witness :
    get_breakout_detail
      (fun n => if n = "Ethernet0_2" then some (some 1, some "SPEED_10G") else none)
      "Ethernet0_2" = .error .nameError :=
  C9_parent_fallback_name_error _ "Ethernet0_2" (some 1) (some "SPEED_10G")
    (by decide) (by decide) (by decide) (by decide)

/-- C7 counterexample: a speed edit on the non-primary breakout
sub-interface Ethernet0_2 is rejected, but the error message is
"Invalid speed: SPEED_40G, candidates: " (empty candidate list), which
names the offending VALUE and not the offending interface: the interface
name does not occur in the message. -/
theorem C7_counterexample :
    SpeedHandler_validate c7_env ⟨"modified", "Ethernet0_2", "SPEED_40G"⟩
      = .error (.invalArg "Invalid speed: SPEED_40G, candidates: ")
    ∧ str_contains_sub "Invalid speed: SPEED_40G, candidates: "
        "Ethernet0_2" = false := by
  refine ⟨rfl, by decide⟩

/-- C7 (amended): every created or modified speed event whose value is
not a valid speed for the target interface fails with an InvalArgError
whose message names the offending VALUE and the candidate values
(rendered through speed_redis_to_yang); in particular, on an interface
whose name does not end in _1 (every non-primary breakout sub-interface)
no speed is valid and the candidate list in the message is empty.
validate is pure, so no state is changed; the message does not contain
the interface name. -/
theorem C7_invalid_speed_rejected (env : SpeedEnv) (ev : ChangeEvent)
    (ht : ev.type = "created" ∨ ev.type = "modified") :
    (speed_in_valids (env.speed_yang_to_redis ev.value)
        (valid_speeds ev.ifname) = false →
      SpeedHandler_validate env ev
        = .error (.invalArg ("Invalid speed: " ++ ev.value
            ++ ", candidates: " ++ String.intercalate ","
                ((valid_speeds ev.ifname).map env.speed_redis_to_yang))))
    ∧ (str_endswith ev.ifname "_1" = false →
      SpeedHandler_validate env ev
        = .error (.invalArg ("Invalid speed: " ++ ev.value
            ++ ", candidates: "))) := by
  constructor
  · intro hv
    unfold SpeedHandler_validate
    rw [if_pos ht, if_pos hv]
  · intro hsub
    unfold SpeedHandler_validate
    rw [if_pos ht]
    have hv : valid_speeds ev.ifname = [] := by
      unfold valid_speeds
      rw [if_pos hsub]
    have hmem : ∀ v, speed_in_valids v [] = false := by
      intro v
      cases v <;> rfl
    simp [hv, hmem]
    rw [show String.intercalate "," ([] : List String) = "" from rfl,
      String.append_empty]

/-- C7 witness: the amended theorem at two concrete inputs: an invalid
speed on the primary interface Ethernet0_1 (non-empty candidate list in
the message) and any speed on the sub-interface Ethernet0_2 (empty
candidate list). -/
theorem C7_invalid_speed_rejected_witness :
    SpeedHandler_validate c7_env ⟨"modified", "Ethernet0_1", "SPEED_25G"⟩
      = .error (.invalArg ("Invalid speed: " ++ "SPEED_25G"
          ++ ", candidates: " ++ String.intercalate ","
              ((valid_speeds "Ethernet0_1").map c7_env.speed_redis_to_yang)))
    ∧ SpeedHandler_validate c7_env ⟨"modified", "Ethernet0_2", "SPEED_40G"⟩
      = .error (.invalArg ("Invalid speed: " ++ "SPEED_40G"
          ++ ", candidates: ")) :=
  ⟨(C7_invalid_speed_rejected c7_env
      ⟨"modified", "Ethernet0_1", "SPEED_25G"⟩ (Or.inr rfl)).1 (by decide),
   (C7_invalid_speed_rejected c7_env
      ⟨"modified", "Ethernet0_2", "SPEED_40G"⟩ (Or.inr rfl)).2 (by decide)⟩

/-- C10: every created or modified advertised-speeds event whose value is
outside the valid speed set fails with NameError (the unbound `change` in
the message f-string), not with the intended InvalArgError. -/
theorem C10_advertised_speeds_name_error (env : SpeedEnv) (ev : ChangeEvent)
    (ht : ev.type = "created" ∨ ev.type = "modified")
    (hv : speed_in_valids (env.speed_yang_to_redis ev.value)
        (valid_speeds ev.ifname) = false) :
    AutoNegotiateAdvertisedSpeedsHandler_validate env ev
      = .error .nameError := by
  unfold AutoNegotiateAdvertisedSpeedsHandler_validate
  rw [if_pos ht, if_pos hv]

/-- C10 witness: an unknown advertised speed on Ethernet0_1 raises
NameError. -/
theorem C10_advertised_speeds_name_error_witness :
    AutoNegotiateAdvertisedSpeedsHandler_validate c7_env
      ⟨"created", "Ethernet0_1", "SPEED_25G"⟩ = .error .nameError :=
  C10_advertised_speeds_name_error c7_env _ (Or.inl rfl) (by decide)

/-- In a char list with no underscore followed by a non-1 channel digit,
the pattern underscore-1 does not occur. -/
theorem list_has_sub_usc_one (base : List Char) (hb : '_' ∉ base) (c : Char)
    (hc : c ≠ '1') : list_has_sub ['_', '1'] (base ++ ['_', c]) = false := by
  induction base with
  | nil =>
    have h1 : ('1' == c) = false := by
      refine beq_eq_false_iff_ne.mpr ?_
      exact fun h => hc h.symm
    simp [list_has_sub, list_starts_with, h1]
  | cons b bs ih =>
    have hb1 : ('_' == b) = false := by
      refine beq_eq_false_iff_ne.mpr ?_
      intro h
      exact hb (h ▸ List.mem_cons_self b bs)
    have hb2 : '_' ∉ bs := fun h => hb (List.mem_cons_of_mem b h)
    simp only [List.cons_append, list_has_sub, list_starts_with, hb1,
      Bool.false_and, Bool.false_or]
    exact ih hb2

/-- C8: breakout validation preserves the data-model invariants: a
created or modified breakout configuration is rejected with a validation
error when the target is a non-primary sub-interface (name of the form
base_ch with channel digit 2, 3 or 4 and no underscore in base), or when
the target is a UFD member (uplink or downlink), or when num-channels
and channel-speed are not both set in the post-change configuration. -/
theorem C8_breakout_validation_invariants (ufd : List UfdConfig)
    (ev : ChangeEvent) (nc : Option Nat) (cs : Option String)
    (ht : ev.type = "created" ∨ ev.type = "modified")
    (hcond :
      (∃ base ch, ev.ifname = base ++ "_" ++ ch ∧ ch ∈ ["2", "3", "4"]
        ∧ '_' ∉ base.data)
      ∨ is_ufd_port ufd ev.ifname = true
      ∨ (nc = none ∨ cs = none)) :
    is_validation_error (BreakoutHandler_validate ufd ev (some (nc, cs)))
      = true := by
  unfold BreakoutHandler_validate
  rw [if_pos ht]
  rcases hcond with ⟨base, ch, heq, hch, hbase⟩ | hufd | hns
  · have hsub : str_contains_sub ev.ifname "_1" = false := by
      rw [heq]
      show list_has_sub ['_', '1'] ((base.data ++ ['_']) ++ ch.data) = false
      rw [List.append_assoc]
      simp only [List.mem_cons, List.not_mem_nil, or_false] at hch
      rcases hch with h | h | h <;> subst h
      · exact list_has_sub_usc_one base.data hbase '2' (by decide)
      · exact list_has_sub_usc_one base.data hbase '3' (by decide)
      · exact list_has_sub_usc_one base.data hbase '4' (by decide)
    rw [if_pos hsub]
    rfl
  · by_cases hsub : str_contains_sub ev.ifname "_1" = false
    · rw [if_pos hsub]
      rfl
    · rw [if_neg hsub, if_pos hufd]
      rfl
  · by_cases hsub : str_contains_sub ev.ifname "_1" = false
    · rw [if_pos hsub]
      rfl
    · rw [if_neg hsub]
      by_cases hufd : is_ufd_port ufd ev.ifname = true
      · rw [if_pos hufd]
        rfl
      · rw [if_neg hufd]
        simp only [hns, if_pos]
        rfl

/-- C8 witness: a created breakout change on the non-primary
sub-interface Ethernet0_2 is rejected with a validation error. -/
theorem C8_breakout_validation_invariants_witness :
    is_validation_error (BreakoutHandler_validate []
      ⟨"created", "Ethernet0_2", ""⟩ (some (some 4, some "SPEED_10G")))
      = true :=
  C8_breakout_validation_invariants [] _ (some 4) (some "SPEED_10G")
    (Or.inl rfl)
    (Or.inl ⟨"Ethernet0", "2", rfl, by decide, by decide⟩)

/-- Applying a write list overwrites exactly the keys it mentions, with
the last value written. -/
theorem applyW_eq (ws : List Write) (m : Eff) (k : Sink × String × String) :
    applyW m ws k
      = match last_write ws k with
        | some v => some v
        | none => m k := by
  induction ws generalizing m with
  | nil => rfl
  | cons w ws ih =>
    show applyW (apply_write m w) ws k = _
    rw [ih]
    show _ = (match (match last_write ws k with
      | some v => some v
      | none => if k = (w.sink, w.ifname, w.key) then some w.value
                else none) with
      | some v => some v
      | none => m k)
    cases h : last_write ws k with
    | some v => rfl
    | none =>
      show apply_write m w k = _
      unfold apply_write
      by_cases hk : k = (w.sink, w.ifname, w.key) <;> simp [hk]

/-- Applying the same write list twice equals applying it once. -/
theorem applyW_idem (ws : List Write) (m : Eff) :
    applyW (applyW m ws) ws = applyW m ws := by
  funext k
  rw [applyW_eq]
  cases h : last_write ws k with
  | none => rfl
  | some v =>
    rw [applyW_eq, h]

/-- breakout_update_usonic never touches the busy flag. -/
theorem breakout_update_rebooting (env : Env) (cfg : Config) (s : Sonic) :
    (breakout_update_usonic env cfg s).2.is_rebooting = s.is_rebooting := by
  unfold breakout_update_usonic
  by_cases h : s.portmap = derive_portmap env cfg <;> simp [h]

/-- breakout_update_usonic always leaves the derived port map behind. -/
theorem breakout_update_portmap (env : Env) (cfg : Config) (s : Sonic) :
    (breakout_update_usonic env cfg s).2.portmap = derive_portmap env cfg := by
  unfold breakout_update_usonic
  by_cases h : s.portmap = derive_portmap env cfg <;> simp [h]

/-- When the active port map already equals the derived one,
breakout_update_usonic reports no change and does not restart. -/
theorem breakout_update_unchanged (env : Env) (cfg : Config) (s : Sonic)
    (h : s.portmap = derive_portmap env cfg) :
    breakout_update_usonic env cfg s = (false, s) := by
  obtain ⟨reb, pm, ifn, rc, hw, cb, eff⟩ := s
  simp only at h
  subst h
  simp [breakout_update_usonic]

/-- C3 counterexample: when the restart wait fails, the run fails AND the
busy flag is left SET (not cleared as the claim states), so subsequent
commits are rejected by the pre-check: the adapter does not return to a
commit-capable state. -/
theorem C3_counterexample :
    (reconcile c3_env c3_cfg c3_sonic).2 = some .waitTimeout
    ∧ (reconcile c3_env c3_cfg c3_sonic).1.is_rebooting = true
    ∧ pre (reconcile c3_env c3_cfg c3_sonic).1
        = .error (.lockedError "uSONiC is rebooting") := by
  refine ⟨rfl, rfl, rfl⟩

/-- C3 (amended): a reconcile failure (wait expiry or replay exception)
leaves the busy flag SET, so the pre-check keeps rejecting commits until
a later reconcile completes; only a successful run clears the flag. -/
theorem C3_reconcile_failure_keeps_busy (env : Env) (cfg : Config)
    (s : Sonic) :
    ((reconcile env cfg s).2.isSome →
      (reconcile env cfg s).1.is_rebooting = true
      ∧ pre (reconcile env cfg s).1
          = .error (.lockedError "uSONiC is rebooting"))
    ∧ ((reconcile env cfg s).2 = none →
      (reconcile env cfg s).1.is_rebooting = false) := by
  have hpre : ∀ t : Sonic, t.is_rebooting = true →
      pre t = .error (.lockedError "uSONiC is rebooting") := by
    intro t ht
    unfold pre
    rw [if_pos ht]
  set r := breakout_update_usonic env cfg { s with is_rebooting := true }
    with hr
  have hreb : r.2.is_rebooting = true := by
    rw [hr, breakout_update_rebooting]
  unfold reconcile reconcile_after_update
  rw [← hr]
  by_cases hw : (r.1 && !env.wait_ok) = true
  · rw [if_pos hw]
    refine ⟨fun _ => ⟨hreb, hpre _ hreb⟩, fun hno => ?_⟩
    simp at hno
  · rw [if_neg hw]
    set s1 := if r.1 then r.2 else cache_counters r.2 with hs1
    have hs1reb : s1.is_rebooting = true := by
      rw [hs1]
      by_cases hb : r.1 = true
      · simp [hb, hreb]
      · simp [hb, cache_counters, hreb]
    unfold reconcile_replay
    cases hrep : replay_all env cfg s1.ifnames with
    | error e =>
      refine ⟨fun _ => ⟨hs1reb, hpre _ hs1reb⟩, fun hno => ?_⟩
      simp at hno
    | ok w =>
      refine ⟨fun hsome => ?_, fun _ => rfl⟩
      simp at hsome

/-- C3 witness: the amended theorem at the concrete failing scenario. -/
theorem C3_reconcile_failure_keeps_busy_witness :
    (reconcile c3_env c3_cfg c3_sonic).1.is_rebooting = true
    ∧ pre (reconcile c3_env c3_cfg c3_sonic).1
        = .error (.lockedError "uSONiC is rebooting") :=
  (C3_reconcile_failure_keeps_busy c3_env c3_cfg c3_sonic).1 (by decide)

/-- C4: an unrecognized ethernet/config attribute makes the reconcile
run FAIL with a KeyError (the warn f-string indexes config[key] where
config is a different dict) instead of being logged and skipped, and the
busy flag stays set. By contrast, in the config loop (which logs the
dict it iterates) an unrecognized key is skipped as designed. -/
theorem C4_unrecognized_attribute_key_error :
    (reconcile c4_env c4_cfg c4_sonic).2 = some .keyError
    ∧ (reconcile c4_env c4_cfg c4_sonic).1.is_rebooting = true
    ∧ cfg_step "Ethernet0_1" [("foo", "1"), ("admin-status", "UP")]
        = [⟨.configdb, "Ethernet0_1", "admin-status", "UP"⟩] := by
  refine ⟨rfl, rfl, rfl⟩

/-- Inversion of a successful reconcile run: some intermediate state mid
with the derived port map reached the replay, the replay produced writes
w, and the final state applies w and clears the busy flag. -/
theorem reconcile_ok_cases (env : Env) (cfg : Config) (s0 s1 : Sonic)
    (h : reconcile env cfg s0 = (s1, none)) :
    ∃ (mid : Sonic) (w : List Write),
      replay_all env cfg mid.ifnames = .ok w
      ∧ s1 = { mid with eff := applyW mid.eff w, is_rebooting := false }
      ∧ mid.portmap = derive_portmap env cfg := by
  unfold reconcile reconcile_after_update at h
  set r := breakout_update_usonic env cfg { s0 with is_rebooting := true }
    with hr
  by_cases hw : (r.1 && !env.wait_ok) = true
  · rw [if_pos hw] at h
    simp at h
  · rw [if_neg hw] at h
    set mid := if r.1 then r.2 else cache_counters r.2 with hmid
    have hpm : mid.portmap = derive_portmap env cfg := by
      rw [hmid]
      by_cases hb : r.1 = true
      · rw [if_pos hb, hr, breakout_update_portmap]
      · rw [if_neg hb]
        show (cache_counters r.2).portmap = _
        rw [show (cache_counters r.2).portmap = r.2.portmap from rfl, hr,
          breakout_update_portmap]
    unfold reconcile_replay at h
    cases hrep : replay_all env cfg mid.ifnames with
    | error e =>
      rw [hrep] at h
      simp at h
    | ok w =>
      rw [hrep] at h
      refine ⟨mid, w, hrep, ?_, hpm⟩
      have := congrArg Prod.fst h
      simpa using this.symm

/-- A reconcile run that starts with the derived port map already active
and a successful replay: no restart, the counter baseline is snapshotted,
the writes are applied and the busy flag ends cleared. -/
theorem reconcile_no_restart_run (env : Env) (cfg : Config) (t : Sonic)
    (w : List Write) (hpm : t.portmap = derive_portmap env cfg)
    (hrep : replay_all env cfg t.ifnames = .ok w) :
    reconcile env cfg t
      = ({ t with
            counter_baseline := t.hw_counters
            eff := applyW t.eff w
            is_rebooting := false }, none) := by
  unfold reconcile
  have hb : breakout_update_usonic env cfg { t with is_rebooting := true }
      = (false, { t with is_rebooting := true }) := by
    apply breakout_update_unchanged
    exact hpm
  rw [hb]
  unfold reconcile_after_update
  rw [if_neg (by simp)]
  rw [if_neg (by simp)]
  unfold reconcile_replay
  rw [show (cache_counters { t with is_rebooting := true }).ifnames
    = t.ifnames from rfl, hrep]
  rfl

/-- C5: a second reconcile with the same configuration succeeds, does
not restart the forwarding plane (restart counter unchanged), snapshots
the cumulative counters as the new baseline, and leaves an identical
interface-state snapshot (external attribute state, port map, interface
names). -/
theorem C5_reconcile_idempotent (env : Env) (cfg : Config) (s0 s1 : Sonic)
    (h : reconcile env cfg s0 = (s1, none)) :
    (reconcile env cfg s1).2 = none
    ∧ (reconcile env cfg s1).1.restart_count = s1.restart_count
    ∧ (reconcile env cfg s1).1.counter_baseline = s1.hw_counters
    ∧ (reconcile env cfg s1).1.eff = s1.eff
    ∧ (reconcile env cfg s1).1.portmap = s1.portmap
    ∧ (reconcile env cfg s1).1.ifnames = s1.ifnames
    ∧ (reconcile env cfg s1).1.is_rebooting = false := by
  obtain ⟨mid, w, hrep, hs1, hpm⟩ := reconcile_ok_cases env cfg s0 s1 h
  subst hs1
  have hrun := reconcile_no_restart_run env cfg
    { mid with eff := applyW mid.eff w, is_rebooting := false } w hpm hrep
  rw [hrun]
  refine ⟨rfl, rfl, rfl, ?_, rfl, rfl, rfl⟩
  show applyW (applyW mid.eff w) w = applyW mid.eff w
  exact applyW_idem w mid.eff

/-- C5 witness: the idempotence theorem at a concrete first run. -/
theorem C5_reconcile_idempotent_witness :
    (reconcile c5_env c5_cfg c5_s1).2 = none
    ∧ (reconcile c5_env c5_cfg c5_s1).1.restart_count = c5_s1.restart_count
    ∧ (reconcile c5_env c5_cfg c5_s1).1.counter_baseline
        = c5_s1.hw_counters :=
  have h := C5_reconcile_idempotent c5_env c5_cfg c5_s0 c5_s1 rfl
  ⟨h.1, h.2.1, h.2.2.1⟩
